import Mathlib

/-!
# Verification of the micro-VM fleet control plane

A shallow embedding of the backend services of the nuevo-dashboard repository
(`backend/services/utils.py`, `backend/services/orchestrator.py`,
`backend/services/automation.py`, `backend/services/infra_adapter.py`,
`backend/repositories/storage.py`), together with theorems settling the
frozen specification claims.

Conventions of the embedding:
* machine integers are `Nat`/`Int` (Python integers are unbounded, so no
  wrap-around modelling is needed);
* wall-clock timestamps (`datetime.utcnow()`) are explicit `Nat` parameters;
* database rows are Lean structures, tables are Lean lists;
* raised exceptions are `Except`/`Option` error results;
* nondeterministic identifiers (`uuid4().hex`) are explicit parameters or
  derived from counters, which is irrelevant to every claim below.
-/

namespace NuevoDashboard

/-! ## `backend/services/utils.py` -/

/-- ASCII whitespace as matched by the `\s` class used in `RAM_PATTERN` and
`CPU_PATTERN` (`utils.py`, lines 8-9). -/
def isSpaceChar (c : Char) : Bool :=
  c == ' ' || c == '\t' || c == '\n' || c == '\r' || c == '\x0b' || c == '\x0c'

def dropSpaces : List Char → List Char
  | [] => []
  | c :: cs => if isSpaceChar c then dropSpaces cs else c :: cs

/-- Python `str.strip()`: drop ASCII whitespace from both ends. -/
def stripChars (cs : List Char) : List Char :=
  (dropSpaces (dropSpaces cs).reverse).reverse

/-- Longest prefix of decimal digits, with the remainder (`\d+`). -/
def takeDigits : List Char → List Char × List Char
  | [] => ([], [])
  | c :: cs =>
    if c.isDigit then
      let p := takeDigits cs
      (c :: p.1, p.2)
    else ([], c :: cs)

/-- Longest prefix of ASCII letters, with the remainder (the unit group of
`RAM_PATTERN`). -/
def takeAlpha : List Char → List Char × List Char
  | [] => ([], [])
  | c :: cs =>
    if c.isAlpha then
      let p := takeAlpha cs
      (c :: p.1, p.2)
    else ([], c :: cs)

def digitsToNat (ds : List Char) : Nat :=
  ds.foldl (fun n c => 10 * n + (c.toNat - 48)) 0

/-- `utils.parse_ram_to_mb` (utils.py lines 12-21): full match of
`^\s*(\d+)\s*(mb|m|gb|g)?\s*$` (case-insensitive); `gb`/`g` multiplies by
1024.  A failed match raises `ValueError`, embedded as `.error`.
Note: the source applies **no positivity check** to the parsed amount. -/
def parse_ram_to_mb (value : String) : Except String Nat :=
  let s := dropSpaces value.toList
  let d := takeDigits s
  if d.1.isEmpty then
    .error ("Invalid RAM value. Use formats like 512, 512MB, or 2GB.")
  else
    let afterDigits := dropSpaces d.2
    let u := takeAlpha afterDigits
    let rest := dropSpaces u.2
    if !rest.isEmpty then
      .error ("Invalid RAM value. Use formats like 512, 512MB, or 2GB.")
    else
      let unit := String.mk (u.1.map Char.toLower)
      let amount := digitsToNat d.1
      if unit == "" || unit == "mb" || unit == "m" then .ok amount
      else if unit == "gb" || unit == "g" then .ok (amount * 1024)
      else .error ("Invalid RAM value. Use formats like 512, 512MB, or 2GB.")

/-- `utils.parse_cpu_cores` (utils.py lines 24-31): full match of
`^\s*(\d+)\s*$`, then rejects `cores <= 0`. -/
def parse_cpu_cores (value : String) : Except String Nat :=
  let s := dropSpaces value.toList
  let d := takeDigits s
  if d.1.isEmpty then
    .error ("Invalid CPU value. Use integer core values like 1 or 4.")
  else if !(dropSpaces d.2).isEmpty then
    .error ("Invalid CPU value. Use integer core values like 1 or 4.")
  else
    let cores := digitsToNat d.1
    if cores ≤ 0 then .error ("CPU cores must be greater than zero.")
    else .ok cores

/-- Python `str.title()` restricted to ASCII: upper-case a letter that does not
follow a letter, lower-case the others. -/
def titleCaseGo : List Char → Bool → List Char
  | [], _ => []
  | c :: cs, prevAlpha =>
    (if prevAlpha then c.toLower else c.toUpper) :: titleCaseGo cs c.isAlpha

/-- `utils.normalize_country` (utils.py lines 78-79): `country.strip().title()`. -/
def normalize_country (country : String) : String :=
  String.mk (titleCaseGo (stripChars country.toList) false)

/-! ## Data model (`backend/db_models.py`) -/

/-- `MicroVMEntity` (db_models.py lines 9-26), the columns the claims read.
`created_at` is the row-creation timestamp. -/
structure MicroVM where
  id : String
  country : String
  ram_mb : Nat
  cpu_cores : Nat
  template_id : String
  status : String
  verification_status : String
  created_at : Nat
  deriving Repr, DecidableEq

/-- `TemplateEntity` (db_models.py lines 74-84), the columns used by VM creation. -/
structure Template where
  id : String
  base_image : String
  deriving Repr, DecidableEq

/-- `GuardrailsEntity` (db_models.py lines 87-97).  `min_host_ram_mb` is kept
as `Int` because it is compared against a possibly negative free-RAM figure. -/
structure Guardrails where
  max_vms : Nat
  min_host_ram_mb : Int
  max_cpu_per_vm : Nat
  overload_prevention : Bool
  deriving Repr, DecidableEq

/-- `SchedulerJobEntity` (db_models.py lines 100-113), the columns the
autoscaler and scheduler read. -/
structure SchedulerJob where
  id : String
  status : String
  vm_id : Option String
  deriving Repr, DecidableEq

/-- `OperationEntity` (db_models.py lines 142-156): `started_at` and
`finished_at` are nullable with **no default**; `requested_at` and
`updated_at` default to the insertion time. -/
structure Operation where
  id : String
  resource_type : String
  resource_id : String
  operation : String
  status : String
  message : Option String
  requested_at : Nat
  started_at : Option Nat
  finished_at : Option Nat
  updated_at : Nat
  deriving Repr, DecidableEq

/-! ## Operation ledger (`backend/repositories/storage.py`) -/

/-- `StorageRepository.create_operation` (storage.py lines 383-399): builds a
fresh row with the given status; `started_at`/`finished_at` stay at their
`NULL` column defaults whatever the initial status is.  The `uuid4().hex` id
is an explicit parameter. -/
def create_operation (opId : String) (resource_type resource_id operation : String)
    (status : String) (message : Option String) (now : Nat) : Operation :=
  { id := opId
    resource_type := resource_type
    resource_id := resource_id
    operation := operation
    status := status
    message := message
    requested_at := now
    started_at := none
    finished_at := none
    updated_at := now }

/-- `StorageRepository.update_operation_status` (storage.py lines 425-443),
the entity transformation applied once the row has been found: the status and
(when given) message are overwritten; `started_at` is stamped with the current
time on **every** transition to `running`; a terminal status stamps
`finished_at` and backfills `started_at` if it is still unset. -/
def update_operation_status (op : Operation) (status : String)
    (message : Option String) (now : Nat) : Operation :=
  let op1 : Operation :=
    { op with
      status := status
      message := match message with
        | some m => some m
        | none => op.message
      updated_at := now }
  let op2 : Operation :=
    if status == "running" then { op1 with started_at := some now } else op1
  if status == "succeeded" || status == "failed" then
    { op2 with
      started_at := some (op2.started_at.getD now)
      finished_at := some now }
  else op2

/-! ## VM lifecycle manager (`backend/services/orchestrator.py`) -/

/-- `ACTIVE_VM_STATES` (orchestrator.py line 26). -/
def ACTIVE_VM_STATES : List String := ["creating", "running", "stopping", "restarting"]

/-- The repository tables `OrchestratorService.create_vm` touches.  Deleted
VMs are soft-deleted (`update_vm(vm, status="deleted")`), so their rows remain
in `vms`.  `host_total_ram_mb` is `settings.host_total_ram_mb`. -/
structure OrchState where
  vms : List MicroVM
  templates : List Template
  guardrails : Option Guardrails
  ops : List Operation
  host_total_ram_mb : Int
  deriving Repr, DecidableEq

/-- `StorageRepository.get_vm` (storage.py lines 58-59) at the table level:
primary-key lookup. -/
def find_vm (vms : List MicroVM) (vmId : String) : Option MicroVM :=
  vms.find? (fun vm => vm.id == vmId)

/-- `StorageRepository.get_vm` applied to the orchestrator state. -/
def get_vm (st : OrchState) (vmId : String) : Option MicroVM :=
  find_vm st.vms vmId

/-- `StorageRepository.get_template` (storage.py lines 206-207). -/
def get_template (st : OrchState) (templateId : String) : Option Template :=
  st.templates.find? (fun t => t.id == templateId)

/-- `StorageRepository.count_vms` with a status-set filter
(storage.py lines 67-80). -/
def count_vms (st : OrchState) (statuses : List String) : Nat :=
  (st.vms.filter (fun vm => statuses.contains vm.status)).length

/-- `StorageRepository.sum_vm_ram_mb` with a status-set filter
(storage.py lines 82-86). -/
def sum_vm_ram_mb (st : OrchState) (statuses : List String) : Nat :=
  ((st.vms.filter (fun vm => statuses.contains vm.status)).map MicroVM.ram_mb).sum

/-- The request body `MicroVMCreate` (models.py): caller-chosen id, region,
and size strings. -/
structure MicroVMCreate where
  id : String
  country : String
  ram : String
  cpu : String
  template_id : String
  deriving Repr, DecidableEq

/-- The distinct raise sites of `OrchestratorService.create_vm`
(orchestrator.py lines 36-156) plus the database integrity error raised by a
duplicate primary-key insert. `httpStatus` below recovers each site's HTTP
status code. -/
inductive CreateVmError where
  /-- line 54: `HTTPException(409, "VM ... already exists.")` -/
  | conflict (detail : String)
  /-- line 65: `HTTPException(404, "Template ... not found.")` -/
  | templateNotFound (detail : String)
  /-- line 79: `HTTPException(400, str(exc))` re-raising a sizing `ValueError` -/
  | invalidSizing (detail : String)
  /-- line 96: `HTTPException(409, "Guardrail violation: max_vms ... reached.")` -/
  | guardrailMaxVms
  /-- line 108: `HTTPException(400, "Guardrail violation: CPU per VM exceeds ...")` -/
  | guardrailCpu
  /-- line 130: `HTTPException(409, "Guardrail violation: host reserve RAM ...")` -/
  | guardrailHostRam
  /-- `IntegrityError` raised by `StorageRepository.create_vm`
  (storage.py lines 39-56): `db.add` + `commit` of a fresh entity whose
  primary key collides with a retained row. -/
  | integrityError (vmId : String)
  deriving Repr, DecidableEq

/-- HTTP status of each `create_vm` failure (500 for the unhandled
`IntegrityError`). -/
def CreateVmError.httpStatus : CreateVmError → Nat
  | .conflict _ => 409
  | .templateNotFound _ => 404
  | .invalidSizing _ => 400
  | .guardrailMaxVms => 409
  | .guardrailCpu => 400
  | .guardrailHostRam => 409
  | .integrityError _ => 500

/-- The duplicate-id Conflict check (orchestrator.py lines 44-54): rejects
exactly when a VM row with that id exists and its status is not `deleted`. -/
def activeDuplicate (st : OrchState) (vmId : String) : Bool :=
  match get_vm st vmId with
  | some existing => existing.status != "deleted"
  | none => false

/-- The guardrail checks of `create_vm` (orchestrator.py lines 81-130), run in
source order: active-VM count, CPU per VM, then projected free host RAM
(`Int` subtraction, as Python integers can go negative). -/
def guardrail_check (st : OrchState) (ram_mb cpu_cores : Nat) : Option CreateVmError :=
  match st.guardrails with
  | none => none
  | some g =>
    let active_vms := count_vms st ACTIVE_VM_STATES
    if active_vms ≥ g.max_vms then some .guardrailMaxVms
    else if cpu_cores > g.max_cpu_per_vm then some .guardrailCpu
    else
      let used_ram_mb := sum_vm_ram_mb st ACTIVE_VM_STATES
      let free_after_create : Int := st.host_total_ram_mb - (used_ram_mb + ram_mb)
      if g.overload_prevention && free_after_create < g.min_host_ram_mb then
        some .guardrailHostRam
      else none

/-- `StorageRepository.create_vm` (storage.py lines 39-56) under the
`micro_vms` primary-key constraint: inserting a row whose id already exists in
the table (deleted or not) raises `IntegrityError` at commit. -/
def insert_vm (st : OrchState) (req : MicroVMCreate) (ram_mb cpu_cores now : Nat) :
    Except CreateVmError (OrchState × MicroVM) :=
  if st.vms.any (fun v => v.id == req.id) then
    .error (.integrityError req.id)
  else
    let vm : MicroVM :=
      { id := req.id
        country := normalize_country req.country
        ram_mb := ram_mb
        cpu_cores := cpu_cores
        template_id := req.template_id
        status := "creating"
        verification_status := "Secure"
        created_at := now }
    .ok ({ st with vms := st.vms ++ [vm] }, vm)

/-- `OrchestratorService.create_vm` (orchestrator.py lines 36-156), the
synchronous part up to scheduling the background provisioning task: the
duplicate-id check, template lookup, sizing parse, guardrail checks, VM row
insertion and pending-Operation insertion, in source order.  Every failure
happens before any VM or Operation row is written. -/
def create_vm (st : OrchState) (req : MicroVMCreate) (now : Nat) :
    Except CreateVmError (OrchState × MicroVM) :=
  if activeDuplicate st req.id then .error (.conflict req.id)
  else
    match get_template st req.template_id with
    | none => .error (.templateNotFound req.template_id)
    | some _ =>
      match parse_ram_to_mb req.ram with
      | .error e => .error (.invalidSizing e)
      | .ok ram_mb =>
        match parse_cpu_cores req.cpu with
        | .error e => .error (.invalidSizing e)
        | .ok cpu_cores =>
          match guardrail_check st ram_mb cpu_cores with
          | some e => .error e
          | none =>
            match insert_vm st req ram_mb cpu_cores now with
            | .error e => .error e
            | .ok (st1, vm) =>
              let op := create_operation ("op-" ++ toString st1.ops.length)
                "vm" vm.id "create" "pending" (some "VM creation queued.") now
              .ok ({ st1 with ops := st1.ops ++ [op] }, vm)

/-- State left behind by one `create_vm` request: a raise leaves the
repository untouched. -/
def create_vm_state (st : OrchState) (req : MicroVMCreate) (now : Nat) : OrchState :=
  match create_vm st req now with
  | .ok (st1, _) => st1
  | .error _ => st

/-- A sequence of sequentially executed `create_vm` requests, each completing
before the next begins. -/
def apply_create_requests (st : OrchState) (reqs : List (MicroVMCreate × Nat)) : OrchState :=
  reqs.foldl (fun s rq => create_vm_state s rq.1 rq.2) st

/-! ## Infrastructure execution adapter (`backend/services/infra_adapter.py`) -/

def VALID_MODES : List String := ["mock", "best_effort", "strict"]

def VALID_TRANSPORTS : List String := ["shell", "api", "auto"]

/-- The process-wide configuration read by `SafeCommandRunner.__init__` and
`InfrastructureAdapter.__init__` (`backend/config.py`).
`base_url_configured` abstracts whether the relevant service base URL
(`settings.vm_api_base_url` / `settings.proxy_api_base_url`) is non-blank
after `strip()`. -/
structure InfraSettings where
  infra_execution_mode : String
  infra_transport : String
  base_url_configured : Bool
  infra_api_fallback_shell : Bool
  deriving Repr, DecidableEq

/-- Mode normalization of `SafeCommandRunner.__init__`
(infra_adapter.py lines 90-92): strip, lower-case, default to `mock` when not
in `VALID_MODES`.  Lower-casing is modelled on ASCII letters. -/
def runner_mode (cfg : InfraSettings) : String :=
  let m := String.mk ((stripChars cfg.infra_execution_mode.toList).map Char.toLower)
  if VALID_MODES.contains m then m else "mock"

/-- Transport normalization of `InfrastructureAdapter.__init__`
(infra_adapter.py lines 154-157): strip, lower-case, default to `shell` when
not in `VALID_TRANSPORTS`. -/
def adapter_transport (cfg : InfraSettings) : String :=
  let t := String.mk ((stripChars cfg.infra_transport.toList).map Char.toLower)
  if VALID_TRANSPORTS.contains t then t else "shell"

/-- `InfrastructureAdapter._should_try_api` (infra_adapter.py lines 542-552):
`shell` never tries the API; a configured base URL is tried; an unconfigured
base URL raises under `api` and silently declines under `auto`. -/
def should_try_api (cfg : InfraSettings) : Except String Bool :=
  if adapter_transport cfg == "shell" then .ok false
  else if cfg.base_url_configured then .ok true
  else if adapter_transport cfg == "api" then
    .error ("API base URL is not configured.")
  else .ok false

/-- `InfrastructureAdapter._allow_shell_fallback`
(infra_adapter.py lines 554-559).  Note that it inspects only the runner mode
and the `infra_api_fallback_shell` setting — it does **not** distinguish the
`api` transport from `auto`. -/
def allow_shell_fallback (cfg : InfraSettings) : Bool :=
  if adapter_transport cfg == "shell" then true
  else if runner_mode cfg == "strict" then false
  else cfg.infra_api_fallback_shell

/-- How one infrastructure operation was ultimately realized. -/
inductive InfraPath where
  /-- the remote API call succeeded; no shell command ran -/
  | api
  /-- shell commands ran without any API attempt -/
  | shell
  /-- the API call failed and shell fallback commands ran -/
  | shellAfterApiFailure
  deriving Repr, DecidableEq

/-- Outcome of the single remote API call an operation would issue. -/
inductive ApiCallOutcome where
  | succeeds
  | fails (err : String)
  deriving Repr, DecidableEq

/-- The transport-selection skeleton shared verbatim by `provision_vm`,
`stop_vm`, `restart_vm`, `delete_vm`, `rotate_tunnel`, `register_vps` and
`collect_security_snapshot` (infra_adapter.py lines 159-540): when
`_should_try_api` says yes, try the API; on an API exception re-raise unless
`_allow_shell_fallback()`, in which case run the shell path (recording the
failure as a fallback `CommandRun`); otherwise go straight to shell.
(`rotate_tunnel` may additionally retry the API once with a `us` country on a
specific HTTP 400 before reaching this decision; that retry is itself an API
call, not a shell fallback, and does not alter the fallback condition.) -/
def run_infra_operation (cfg : InfraSettings) (api_outcome : ApiCallOutcome) :
    Except String InfraPath :=
  match should_try_api cfg with
  | .error e => .error e
  | .ok true =>
    match api_outcome with
    | .succeeds => .ok .api
    | .fails err =>
      if allow_shell_fallback cfg then .ok .shellAfterApiFailure
      else .error err
  | .ok false => .ok .shell

/-! ## Job scheduler & retry engine (`backend/services/automation.py`) -/

/-- `RUNNABLE_VM_STATES` (automation.py line 16). -/
def RUNNABLE_VM_STATES : List String := ["running"]

/-- `TERMINAL_VM_STATES` (automation.py line 17): note that the automation
module treats `error` and `stopped` as terminal too, not only `deleted`. -/
def TERMINAL_VM_STATES : List String := ["deleted", "error", "stopped"]

/-- `MAX_JOB_RETRIES` (automation.py line 18). -/
def MAX_JOB_RETRIES : Nat := 2

/-- `_pick_runtime_vm` (automation.py lines 422-426): among non-deleted VMs in
a runnable state, the one with the earliest `created_at`
(`sorted(key=created_at)[0]`; the fold keeps the first minimum, matching the
stable sort). -/
def pick_runtime_vm (vms : List MicroVM) : Option MicroVM :=
  match vms.filter (fun vm => vm.status != "deleted" && RUNNABLE_VM_STATES.contains vm.status) with
  | [] => none
  | v :: vs => some (vs.foldl (fun best x => if x.created_at < best.created_at then x else best) v)

/-- Result of the VM-validation phase of one job attempt. -/
inductive AttemptOutcome where
  /-- `JobFatalError`: aborts all remaining attempts -/
  | fatal (msg : String)
  /-- `JobRetryableError`: the attempt may be retried -/
  | retryable (msg : String)
  /-- validation passed; the staged execution runs on this VM -/
  | proceeds (vmId : String)
  deriving Repr, DecidableEq

/-- The checks `_run_single_job_attempt` applies to the assigned VM
(automation.py lines 517-525): a missing or `deleted` VM is fatal, a VM in
`TERMINAL_VM_STATES` is fatal, a VM outside `RUNNABLE_VM_STATES` is
retryable, otherwise the staged execution proceeds. -/
def classify_assigned_vm (vms : List MicroVM) (vmId : String) : AttemptOutcome :=
  match find_vm vms vmId with
  | none => .fatal ("Assigned VM \x27" ++ vmId ++ "\x27 no longer exists.")
  | some vm =>
    if vm.status == "deleted" then
      .fatal ("Assigned VM \x27" ++ vmId ++ "\x27 no longer exists.")
    else if TERMINAL_VM_STATES.contains vm.status then
      .fatal ("Assigned VM \x27" ++ vm.id ++ "\x27 is in state \x27" ++ vm.status ++ "\x27.")
    else if !(RUNNABLE_VM_STATES.contains vm.status) then
      .retryable ("Assigned VM \x27" ++ vm.id ++ "\x27 is currently \x27" ++ vm.status ++ "\x27.")
    else .proceeds vm.id

/-- The VM-validation phase of `_run_single_job_attempt`
(automation.py lines 504-525) for an existing job: a falsy `vm_id` (`None` or
the empty string) triggers auto-assignment via `_pick_runtime_vm`, failing
retryably when no running VM exists; otherwise, or after assignment, the
assigned VM is classified. -/
def run_single_job_attempt_validation (vms : List MicroVM) (jobVmId : Option String) :
    AttemptOutcome :=
  match jobVmId with
  | none =>
    match pick_runtime_vm vms with
    | none => .retryable ("No running VM is available for auto-assignment.")
    | some vm => classify_assigned_vm vms vm.id
  | some s =>
    if s == "" then
      match pick_runtime_vm vms with
      | none => .retryable ("No running VM is available for auto-assignment.")
      | some vm => classify_assigned_vm vms vm.id
    else classify_assigned_vm vms s

/-- The mutable job columns the retry engine writes
(`SchedulerJobEntity.status/progress/retry_count/error_message`). -/
structure JobState where
  status : String
  progress : Nat
  retry_count : Nat
  error_message : Option String
  deriving Repr, DecidableEq

/-- Outcome of one whole job attempt, as seen by `_run_job_with_retries`. -/
inductive AttemptResult where
  | success
  | retryableFail (msg : String)
  | fatalFail (msg : String)
  deriving Repr, DecidableEq

/-- `JOB_STAGES` (automation.py lines 21-27): stage name and target progress
percentage.  (The simulated per-stage sleep durations are real-time delays
with no effect on any state and are not modelled.) -/
def JOB_STAGES : List (String × Nat) :=
  [("preparing runtime environment", 12),
   ("allocating VM resources", 28),
   ("starting workload container", 48),
   ("executing compute workload", 74),
   ("collecting artifacts", 90)]

/-- The per-stage job update of `_run_single_job_attempt`
(automation.py lines 527-550): status `Running`, progress set to the stage
target, error cleared. -/
def apply_stage (job : JobState) (target : Nat) : JobState :=
  { job with status := "Running", progress := target, error_message := none }

/-- The staged execution a successful attempt performs before
`_run_job_with_retries` marks the job `Completed`. -/
def run_success_stages (job : JobState) : JobState :=
  JOB_STAGES.foldl (fun j s => apply_stage j s.2) job

/-- Observable side effects recorded while `_run_job_with_retries` runs. -/
inductive JobEvent where
  /-- `update_scheduler_job` writing this job state -/
  | jobUpdate (st : JobState)
  /-- `time.sleep(retry_wait)` of this many seconds -/
  | sleepSeconds (n : Nat)
  deriving Repr, DecidableEq

/-- Final outcome of one `_run_job_task` run: the job row, the backing
Operation's terminal status, the number of attempts performed, and the trace
of pre-retry updates and backoff sleeps. -/
structure RunOutcome where
  job : JobState
  op_status : String
  attempts : Nat
  retry_trace : List JobEvent
  deriving Repr, DecidableEq

/-- The body of the `for attempt in range(1, total_attempts + 1)` loop of
`_run_job_with_retries` (automation.py lines 429-501), fuelled by the number
of remaining iterations.  Before each retry (`attempt > 1`) the job is marked
`Retrying` with `retry_count = attempt - 1`, progress 5 and a cleared error,
then the engine sleeps `attempt - 1` seconds (linear backoff).  A successful
attempt runs the stages and marks the job `Completed`/100 with the error
cleared.  A retryable failure on the last attempt, and any fatal failure,
re-raise; the enclosing `_run_job_task` handler (lines 383-417) then stamps
the job `Failed` with `progress = min(progress, 99)` and the error message,
and marks the Operation `failed`. -/
def run_job_loop (outcomes : Nat → AttemptResult) :
    Nat → Nat → JobState → List JobEvent → RunOutcome
  | 0, attempt, job, trace =>
    -- the loop always exits inside an iteration; `total_attempts` fuel
    -- makes this branch unreachable from `run_job_with_retries`
    { job := job, op_status := "running", attempts := attempt - 1, retry_trace := trace }
  | fuel + 1, attempt, job, trace =>
    let preJob : JobState :=
      if attempt > 1 then
        { job with status := "Retrying", retry_count := attempt - 1
                   error_message := none, progress := 5 }
      else job
    let preTrace : List JobEvent :=
      if attempt > 1 then
        trace ++ [.jobUpdate preJob, .sleepSeconds (attempt - 1)]
      else trace
    match outcomes attempt with
    | .success =>
      let staged := run_success_stages preJob
      let doneJob : JobState :=
        { staged with status := "Completed", progress := 100, error_message := none }
      { job := doneJob, op_status := "succeeded", attempts := attempt, retry_trace := preTrace }
    | .retryableFail msg =>
      if attempt < MAX_JOB_RETRIES + 1 then
        let failJob : JobState :=
          { preJob with status := "Retrying", retry_count := min attempt MAX_JOB_RETRIES
                        error_message := some msg, progress := 5 }
        run_job_loop outcomes fuel (attempt + 1) failJob preTrace
      else
        let failJob : JobState :=
          { preJob with status := "Failed", retry_count := min attempt MAX_JOB_RETRIES
                        error_message := some msg, progress := min preJob.progress 95 }
        let finalJob : JobState :=
          { failJob with status := "Failed", progress := min failJob.progress 99
                         error_message := some msg }
        { job := finalJob, op_status := "failed", attempts := attempt, retry_trace := preTrace }
    | .fatalFail msg =>
      let failJob : JobState :=
        { preJob with status := "Failed", error_message := some msg }
      let finalJob : JobState :=
        { failJob with status := "Failed", progress := min failJob.progress 99
                       error_message := some msg }
      { job := finalJob, op_status := "failed", attempts := attempt, retry_trace := preTrace }

/-- `_run_job_with_retries` (automation.py lines 429-501) together with the
terminalizing exception handler of `_run_job_task`: `total_attempts =
MAX_JOB_RETRIES + 1` iterations starting at attempt 1.  `outcomes n` is what
attempt `n` would produce. -/
def run_job_with_retries (outcomes : Nat → AttemptResult) (job : JobState) : RunOutcome :=
  run_job_loop outcomes (MAX_JOB_RETRIES + 1) 1 job []

/-- Attempt outcomes given as a list: attempt `n` takes the `n`-th entry
(1-based), defaulting to success past the end. -/
def outcomesOf (l : List AttemptResult) (n : Nat) : AttemptResult :=
  l.getD (n - 1) .success

/-! ## Autoscale controller (`AutomationService.evaluate_autoscale`) -/

/-- The statuses counted as active jobs (automation.py lines 124, 217). -/
def ACTIVE_JOB_STATUSES : List String := ["Queued", "Running", "Retrying"]

/-- The autoscale request body `AutoscaleRequest` (models.py lines 156-164).
Pydantic enforces `min_vms ≥ 0`, `max_vms > 0` and `jobs_per_vm > 0`;
`country_min_pools` values are arbitrary integers, validated in the service. -/
structure AutoscaleRequest where
  min_vms : Nat
  max_vms : Nat
  jobs_per_vm : Nat
  country : String
  country_min_pools : List (String × Int)
  deriving Repr, DecidableEq

/-- Write-or-append into the ordered association list modelling the
insertion-ordered Python dict `country_min_pools`. -/
def pool_update (m : List (String × Nat)) (k : String) (v : Nat) : List (String × Nat) :=
  if m.any (fun p => p.1 == k) then
    m.map (fun p => if p.1 == k then (p.1, v) else p)
  else m ++ [(k, v)]

/-- `country_min_pools.get(name, 0)`. -/
def lookup_pool (m : List (String × Nat)) (k : String) : Nat :=
  ((m.find? (fun p => p.1 == k)).map Prod.snd).getD 0

/-- The pool-normalization loop of `evaluate_autoscale`
(automation.py lines 187-194): reject negative minimums, normalize country
names, merge duplicates with `max`. -/
def fold_country_pools : List (String × Int) → List (String × Nat) →
    Except String (List (String × Nat))
  | [], acc => .ok acc
  | (rawCountry, rawMinimum) :: rest, acc =>
    if rawMinimum < 0 then
      .error ("country_min_pools values must be zero or greater.")
    else
      let countryName := normalize_country rawCountry
      let current := lookup_pool acc countryName
      fold_country_pools rest (pool_update acc countryName (max current rawMinimum.toNat))

/-- `math.ceil(a / b)` for non-negative integers and positive `b`. -/
def ceil_div (a b : Nat) : Nat := (a + b - 1) / b

/-- The quantities `evaluate_autoscale` derives before choosing an action. -/
structure AutoscaleComputation where
  effective_max_vms : Nat
  pools : List (String × Nat)
  pooled_minimum : Nat
  active_jobs : Nat
  queued_jobs : Nat
  desired_vms : Nat
  deriving Repr, DecidableEq

/-- Validation and desired-size computation of `evaluate_autoscale`
(automation.py lines 156-223), in source order: `max_vms ≥ min_vms`;
`effective_max_vms = min(payload.max_vms, guardrail max_vms)` (falling back to
the payload max when no guardrails row exists) must still be `≥ min_vms`; the
normalized pool map with the target country's minimum folded in as
`max(existing entry, payload.min_vms)` must not sum above the effective max;
`desired = min(max(ceil-if-any-active, pooled minimum), effective max)`. -/
def guardrail_max_vms (guardrails : Option Guardrails) (payload_max : Nat) : Nat :=
  match guardrails with
  | some g => g.max_vms
  | none => payload_max

def evaluate_autoscale_core (payload : AutoscaleRequest) (guardrails : Option Guardrails)
    (jobs : List SchedulerJob) : Except String AutoscaleComputation :=
  if payload.max_vms < payload.min_vms then
    .error ("max_vms must be greater than or equal to min_vms.")
  else
    let guardrail_max := guardrail_max_vms guardrails payload.max_vms
    let effective_max_vms := min payload.max_vms guardrail_max
    if effective_max_vms < payload.min_vms then
      .error ("Autoscale limits conflict with guardrails.")
    else
      match fold_country_pools payload.country_min_pools [] with
      | .error e => .error e
      | .ok pools0 =>
        let normalized_country := normalize_country payload.country
        let pools := pool_update pools0 normalized_country
          (max (lookup_pool pools0 normalized_country) payload.min_vms)
        let pooled_minimum := (pools.map Prod.snd).sum
        if effective_max_vms < pooled_minimum then
          .error ("Autoscale country pools exceed limits.")
        else
          let active := jobs.filter (fun j => ACTIVE_JOB_STATUSES.contains j.status)
          let queued := jobs.filter (fun j => j.status == "Queued")
          let desired_from_jobs :=
            if active.isEmpty then 0 else ceil_div active.length payload.jobs_per_vm
          let desired_vms := min (max desired_from_jobs pooled_minimum) effective_max_vms
          .ok { effective_max_vms := effective_max_vms
                pools := pools
                pooled_minimum := pooled_minimum
                active_jobs := active.length
                queued_jobs := queued.length
                desired_vms := desired_vms }

/-- The desired fleet size exactly as the specification words it:
`min(effective_max, max(ceil(active_jobs / jobs_per_vm),
sum_of_regional_minimums))`.  (Spec-derived definition, for comparison with
the source-derived computation.) -/
def desired_vms_spec (effective_max active_jobs jobs_per_vm pooled_minimum : Nat) : Nat :=
  min effective_max (max (ceil_div active_jobs jobs_per_vm) pooled_minimum)

/-- `running_by_country` (automation.py lines 211-214), as a counting
function over the running-VM list. -/
def running_by_country (running : List MicroVM) (c : String) : Nat :=
  (running.filter (fun vm => normalize_country vm.country == c)).length

/-- `busy_vm_ids` (automation.py line 275): the truthy `vm_id`s of the active
jobs (`None` and the empty string are falsy). -/
def busy_vm_ids (active : List SchedulerJob) : List String :=
  active.filterMap (fun j =>
    match j.vm_id with
    | some s => if s == "" then none else some s
    | none => none)

/-- `idle_candidates` (automation.py line 276): running VMs not referenced by
any active job. -/
def idle_candidates (running : List MicroVM) (active : List SchedulerJob) : List MicroVM :=
  running.filter (fun vm => !((busy_vm_ids active).contains vm.id))

/-- `eligible_idle_candidates` (automation.py lines 277-284): drop any idle
candidate whose removal would leave its region below the configured floor
(`remaining = running_by_country - 1 < protected_floor`, over `Int` like the
Python integers). -/
def eligible_idle_candidates (running : List MicroVM) (active : List SchedulerJob)
    (pools : List (String × Nat)) : List MicroVM :=
  (idle_candidates running active).filter (fun vm =>
    let vm_country := normalize_country vm.country
    let protected_floor := lookup_pool pools vm_country
    let remaining : Int := (running_by_country running vm_country : Int) - 1
    !(remaining < (protected_floor : Int)))

/-- First youngest VM: `sorted(key=created_at, reverse=True)[0]` — the stable
descending sort makes this the first element attaining the maximal
`created_at`, which the fold reproduces. -/
def youngest_vm (v : MicroVM) (vs : List MicroVM) : MicroVM :=
  vs.foldl (fun best x => if best.created_at < x.created_at then x else best) v

/-- The common prefix of both scale-down `NoAction` reasons
(automation.py lines 314-315 and 328-329). -/
def no_candidate_reason_head (running_count desired : Nat) : String :=
  "No scale-down candidate: running=" ++ toString running_count ++
    " desired=" ++ toString desired

/-- Reason reported when idle candidates exist but regional floors block all
of them (automation.py lines 313-317). -/
def pools_prevent_reason (running_count desired : Nat) (pool_description : String) : String :=
  no_candidate_reason_head running_count desired ++
    "; country pools prevent removal (pools=" ++ pool_description ++ ")."

/-- Reason reported when every running VM is referenced by an active job
(automation.py lines 328-331). -/
def all_busy_reason (running_count desired : Nat) : String :=
  no_candidate_reason_head running_count desired ++
    ", all running VMs are currently busy."

/-- Reason reported with a scale-down stop (automation.py lines 289-292). -/
def scale_down_reason (running_count desired : Nat) (vmId pool_description : String) : String :=
  "Scale down: running=" ++ toString running_count ++ " above desired=" ++
    toString desired ++ "; selected idle VM \x27" ++ vmId ++ "\x27 (pools=" ++
    pool_description ++ ")."

/-- The action `evaluate_autoscale` reports once the desired size is known. -/
inductive AutoscaleAction where
  /-- `action="scale_up"`: one VM created in the target country -/
  | scale_up (target_country : String)
  /-- `action="scale_down"`: the named idle VM is stopped -/
  | scale_down (vmId : String) (reason : String)
  /-- `action="none"` -/
  | no_action (reason : String)
  deriving Repr, DecidableEq

/-- The deficit-based target-country pick of the scale-up branch
(automation.py lines 228-234): regions below their minimum, ordered by
largest deficit, then fewer running VMs, then name; the stable sort's first
element is reproduced by a keep-first-strict-minimum fold; with no deficit the
caller's normalized country is used. -/
def scale_up_target (pools : List (String × Nat)) (running : List MicroVM)
    (normalized_country : String) : String :=
  let deficits := pools.filterMap (fun p =>
    if running_by_country running p.1 < p.2 then
      some (p.1, p.2 - running_by_country running p.1)
    else none)
  match deficits with
  | [] => normalized_country
  | d :: ds =>
    (ds.foldl (fun best x =>
      if x.2 > best.2 then x
      else if x.2 == best.2 &&
          running_by_country running x.1 < running_by_country running best.1 then x
      else if x.2 == best.2 &&
          running_by_country running x.1 == running_by_country running best.1 &&
          x.1 < best.1 then x
      else best) d).1

/-- The action-selection tail of `evaluate_autoscale`
(automation.py lines 227-354), given the computed quantities: scale up below
desired, scale down above desired (stopping the youngest eligible idle VM,
else reporting which of the two no-candidate situations holds), otherwise
stable. -/
def autoscale_post_decision (comp : AutoscaleComputation) (payload : AutoscaleRequest)
    (vms : List MicroVM) (jobs : List SchedulerJob) (pool_description : String) :
    AutoscaleAction :=
  let running := vms.filter (fun vm => vm.status == "running")
  let active := jobs.filter (fun j => ACTIVE_JOB_STATUSES.contains j.status)
  if running.length < comp.desired_vms then
    .scale_up (scale_up_target comp.pools running (normalize_country payload.country))
  else if comp.desired_vms < running.length then
    match eligible_idle_candidates running active comp.pools with
    | v :: vs =>
      let target := youngest_vm v vs
      .scale_down target.id
        (scale_down_reason running.length comp.desired_vms target.id pool_description)
    | [] =>
      if (idle_candidates running active).isEmpty then
        .no_action (all_busy_reason running.length comp.desired_vms)
      else
        .no_action (pools_prevent_reason running.length comp.desired_vms pool_description)
  else
    .no_action ("Stable: running=" ++ toString running.length ++ " matches desired=" ++
      toString comp.desired_vms ++ " (active_jobs=" ++ toString active.length ++
      ", pools=" ++ pool_description ++ ").")

/-! ## Creation transition (`orchestrator._run_vm_create_task`) -/

/-- `InfrastructureAdapter.rotate_tunnel`'s result fields consumed by the
creation transition. -/
structure TunnelRotationResult where
  public_ip : String
  latency_ms : Nat
  asn : String
  deriving Repr, DecidableEq

/-- What the `adapter.rotate_tunnel` call inside `_run_vm_create_task` did:
returned a result, or raised with the given message. -/
inductive RotationOutcome where
  | ok (r : TunnelRotationResult)
  | fail (err : String)
  deriving Repr, DecidableEq

/-- The writes `_run_vm_create_task` performs after compute provisioning
succeeded (orchestrator.py lines 306-436), restricted to the VM row, the
identity row and the Operation. -/
structure VmCreateFinal where
  vm_status : String
  vm_verification_status : String
  vm_public_ip : String
  identity_status : String
  trust_score : Nat
  op_status : String
  op_message : String
  deriving Repr, DecidableEq

/-- The tail of `_run_vm_create_task` (orchestrator.py lines 306-436) once
`adapter.provision_vm` has returned `provision_ip`: rotation success updates
the public IP (keeping the provisioned one when the rotation IP is falsy);
rotation failure is caught, downgrading `verification_status`,
`identity_status` and the trust score, and the VM is then set `running` and
the Operation `succeeded` either way, the success message carrying the
rotation failure reason when there was one.  (The tunnel-row bookkeeping on
both paths touches neither the VM status nor the Operation and is omitted.) -/
def vm_create_finalize (vmId : String) (provision_ip : String)
    (rotation : RotationOutcome) : VmCreateFinal :=
  match rotation with
  | .ok r =>
    let vm_public_ip := if r.public_ip == "" then provision_ip else r.public_ip
    { vm_status := "running"
      vm_verification_status := "Secure"
      vm_public_ip := vm_public_ip
      identity_status := "Secure"
      trust_score := 96
      op_status := "succeeded"
      op_message := "VM \x27" ++ vmId ++ "\x27 is running." }
  | .fail err =>
    { vm_status := "running"
      vm_verification_status := "Warning"
      vm_public_ip := provision_ip
      identity_status := "Warning"
      trust_score := 80
      op_status := "succeeded"
      op_message := "VM \x27" ++ vmId ++ "\x27 is running." ++
        " Tunnel rotation deferred: " ++ err }

/-! ## Helper predicates and concrete scenario data -/

/-- Configuration exhibiting the C1 counterexample: transport `api`, a
configured base URL, the default `mock` runner mode and the default
`INFRA_API_FALLBACK_SHELL=true`. -/
def C1_cfg : InfraSettings :=
  { infra_execution_mode := "mock"
    infra_transport := "api"
    base_url_configured := true
    infra_api_fallback_shell := true }

/-- The configuration used to witness C1's amended theorem: transport `auto`,
configured base URL, strict runner mode. -/
def C1_witness_cfg : InfraSettings :=
  { infra_execution_mode := "strict"
    infra_transport := "auto"
    base_url_configured := true
    infra_api_fallback_shell := true }

/-- Did the parse raise `ValueError`? -/
def parseFails (r : Except String Nat) : Bool :=
  match r with
  | .error _ => true
  | .ok _ => false

/-- Did `create_vm` fail at the sizing parse (`HTTPException(400, str(exc))`
from the `ValueError` handler)? -/
def isInvalidSizing (r : Except CreateVmError (OrchState × MicroVM)) : Bool :=
  match r with
  | .error (.invalidSizing _) => true
  | _ => false

/-- Did `create_vm` fail at the duplicate-id Conflict check? -/
def isDupConflict (r : Except CreateVmError (OrchState × MicroVM)) : Bool :=
  match r with
  | .error (.conflict _) => true
  | _ => false

/-- Did `create_vm` return a fresh VM? -/
def isOkCreate (r : Except CreateVmError (OrchState × MicroVM)) : Bool :=
  match r with
  | .ok _ => true
  | _ => false

/-- A state exercising the C4 counterexample: one template, no guardrails
row, empty fleet. -/
def C4_state : OrchState :=
  { vms := []
    templates := [{ id := "t-001", base_image := "ubuntu-base.img" }]
    guardrails := none
    ops := []
    host_total_ram_mb := 32768 }

/-- A create request whose memory string denotes zero. -/
def C4_request : MicroVMCreate :=
  { id := "vm-zero-ram", country := "us", ram := "0", cpu := "1", template_id := "t-001" }

/-- A sizing request whose memory string matches no size format. -/
def C4_witness_request : MicroVMCreate :=
  { id := "vm-bad-ram", country := "us", ram := "lots", cpu := "1", template_id := "t-001" }

/-- Guardrails used by the C7 witness: `max_vms = 2`. -/
def C7_guardrails : Guardrails :=
  { max_vms := 2, min_host_ram_mb := 1024, max_cpu_per_vm := 4, overload_prevention := true }

/-- Witness state for C7: empty fleet, one template, `max_vms = 2`. -/
def C7_state : OrchState :=
  { vms := []
    templates := [{ id := "t-001", base_image := "ubuntu-base.img" }]
    guardrails := some C7_guardrails
    ops := []
    host_total_ram_mb := 32768 }

/-- Four sequential create requests against a `max_vms = 2` guardrail. -/
def C7_reqs : List (MicroVMCreate × Nat) :=
  [({ id := "vm-1", country := "us", ram := "256MB", cpu := "1", template_id := "t-001" }, 1),
   ({ id := "vm-2", country := "us", ram := "256MB", cpu := "1", template_id := "t-001" }, 2),
   ({ id := "vm-3", country := "us", ram := "256MB", cpu := "1", template_id := "t-001" }, 3),
   ({ id := "vm-4", country := "us", ram := "256MB", cpu := "1", template_id := "t-001" }, 4)]

/-- Witness state for C10: the fleet retains the soft-deleted row of
`vm-old`. -/
def C10_state : OrchState :=
  { vms := [{ id := "vm-old", country := "Us", ram_mb := 256, cpu_cores := 1,
              template_id := "t-001", status := "deleted",
              verification_status := "None", created_at := 0 }]
    templates := [{ id := "t-001", base_image := "ubuntu-base.img" }]
    guardrails := none
    ops := []
    host_total_ram_mb := 32768 }

/-- A create request reusing the id of the deleted VM. -/
def C10_request : MicroVMCreate :=
  { id := "vm-old", country := "us", ram := "256MB", cpu := "1", template_id := "t-001" }

/-- Did the attempt raise `JobFatalError`? -/
def isFatalOutcome : AttemptOutcome → Bool
  | .fatal _ => true
  | .retryable _ => false
  | .proceeds _ => false

/-- Did the attempt raise `JobRetryableError`? -/
def isRetryableOutcome : AttemptOutcome → Bool
  | .fatal _ => false
  | .retryable _ => true
  | .proceeds _ => false

/-- The fleet exhibiting the C3 counterexample: the assigned VM exists in the
(lifecycle-wise non-terminal) state `stopped`. -/
def C3_vms : List MicroVM :=
  [{ id := "vm-1", country := "Us", ram_mb := 256, cpu_cores := 1,
     template_id := "t-001", status := "stopped",
     verification_status := "Secure", created_at := 0 }]

/-- The fleet used to witness C3's amended theorem: one VM still `creating`. -/
def C3_witness_vms : List MicroVM :=
  [{ id := "vm-2", country := "Us", ram_mb := 256, cpu_cores := 1,
     template_id := "t-001", status := "creating",
     verification_status := "Secure", created_at := 0 }]

/-- Concrete payload for the C5 witness: guardrail max 3 caps the requested
max 5; two active jobs at 2 jobs per VM; pools fold `de` to
`max(1, min_vms=2) = 2`. -/
def C5_payload : AutoscaleRequest :=
  { min_vms := 2, max_vms := 5, jobs_per_vm := 2, country := "de"
    country_min_pools := [("de", 1)] }

/-- Jobs for the C5 witness: two active (`Queued`, `Running`), one not. -/
def C5_jobs : List SchedulerJob :=
  [{ id := "j1", status := "Queued", vm_id := none },
   { id := "j2", status := "Running", vm_id := some "vm-1" },
   { id := "j3", status := "Completed", vm_id := some "vm-1" }]

/-- Guardrails for the C5 witness. -/
def C5_guardrails : Guardrails :=
  { max_vms := 3, min_host_ram_mb := 1024, max_cpu_per_vm := 4, overload_prevention := true }

/-- Witness fleet for C9: three running VMs in `De`, oldest first. -/
def C9_vm_a : MicroVM :=
  { id := "vm-a", country := "De", ram_mb := 256, cpu_cores := 1, template_id := "t-001"
    status := "running", verification_status := "Secure", created_at := 1 }

def C9_vm_b : MicroVM :=
  { id := "vm-b", country := "De", ram_mb := 256, cpu_cores := 1, template_id := "t-001"
    status := "running", verification_status := "Secure", created_at := 2 }

def C9_vm_c : MicroVM :=
  { id := "vm-c", country := "De", ram_mb := 256, cpu_cores := 1, template_id := "t-001"
    status := "running", verification_status := "Secure", created_at := 3 }

def C9_vms : List MicroVM := [C9_vm_a, C9_vm_b, C9_vm_c]

/-- Witness jobs for C9: one active job pinned to `vm-a`. -/
def C9_jobs : List SchedulerJob :=
  [{ id := "j1", status := "Running", vm_id := some "vm-a" }]

/-- Witness computation for C9: desired 2 against 3 running. -/
def C9_comp : AutoscaleComputation :=
  { effective_max_vms := 4, pools := [("De", 1)], pooled_minimum := 1
    active_jobs := 1, queued_jobs := 0, desired_vms := 2 }

/-- Witness payload for C9. -/
def C9_payload : AutoscaleRequest :=
  { min_vms := 1, max_vms := 4, jobs_per_vm := 1, country := "de", country_min_pools := [] }

/-! ## Claim theorems -/

/-- **C2, counterexample.**  The claim fails on the code in two ways, both
shown here at concrete inputs: (1) an Operation created directly in the
terminal status `succeeded` — exactly how the synthesized already-stopped
success Operations are created — never receives `finished_at`; (2) a second
transition to `running` re-stamps `started_at` instead of stamping it only
while unset. -/
theorem C2_counterexample :
    (create_operation "op-a" "vm" "vm-1" "stop" "succeeded"
        (some "VM already stopped.") 5).status = "succeeded"
    ∧ (create_operation "op-a" "vm" "vm-1" "stop" "succeeded"
        (some "VM already stopped.") 5).finished_at = none
    ∧ (update_operation_status
        (update_operation_status
          (create_operation "op-b" "vm" "vm-2" "create" "pending"
            (some "VM creation queued.") 0)
          "running" none 1)
        "running" none 2).started_at = some 2 := by
  exact ⟨rfl, rfl, rfl⟩

/-- **C2, amended.**  For every Operation record: setting status to `running`
stamps `started_at` with the current time unconditionally (overwriting any
earlier value); each transition to a terminal status (`succeeded`/`failed`)
stamps `finished_at` at that moment and backfills `started_at` only if still
unset; and an Operation created directly in any status — including the
synthesized already-stopped/already-deleted success Operations — starts with
both `started_at` and `finished_at` unset, so a created-terminal Operation
has no `finished_at` until some later status update. -/
theorem C2_operation_timestamps (op : Operation) (m : Option String) (t : Nat) :
    (update_operation_status op "running" m t).started_at = some t
    ∧ (update_operation_status op "succeeded" m t).finished_at = some t
    ∧ (update_operation_status op "failed" m t).finished_at = some t
    ∧ (update_operation_status op "succeeded" m t).started_at = some (op.started_at.getD t)
    ∧ (update_operation_status op "failed" m t).started_at = some (op.started_at.getD t)
    ∧ ∀ (opId rt rid k s : String) (msg : Option String) (t0 : Nat),
        (create_operation opId rt rid k s msg t0).started_at = none
        ∧ (create_operation opId rt rid k s msg t0).finished_at = none := by
  exact ⟨rfl, rfl, rfl, rfl, rfl, fun _ _ _ _ _ _ _ => ⟨rfl, rfl⟩⟩

/-- **C8** (confirmed).  For every VM creation whose compute provisioning
succeeded but whose tunnel rotation raised: the VM is still set `running`
with `verification_status = Warning`, the Operation is marked `succeeded`,
and its success message is the normal success message extended with the
rotation failure reason — creation never fails solely because rotation
failed. -/
theorem C8_rotation_failure_nonfatal (vmId provision_ip err : String) :
    (vm_create_finalize vmId provision_ip (.fail err)).vm_status = "running"
    ∧ (vm_create_finalize vmId provision_ip (.fail err)).vm_verification_status = "Warning"
    ∧ (vm_create_finalize vmId provision_ip (.fail err)).op_status = "succeeded"
    ∧ (vm_create_finalize vmId provision_ip (.fail err)).op_message =
        ("VM \x27" ++ vmId ++ "\x27 is running." ++ " Tunnel rotation deferred: ") ++ err := by
  exact ⟨rfl, rfl, rfl, rfl⟩

/-- **C1, counterexample.**  Under transport `api` with a configured base
URL, a failed API call **is** followed by a shell fallback whenever the
runner mode is not `strict` and `infra_api_fallback_shell` is enabled (its
default): `_allow_shell_fallback` never distinguishes `api` from `auto`. -/
theorem C1_counterexample :
    adapter_transport C1_cfg = "api"
    ∧ C1_cfg.base_url_configured = true
    ∧ run_infra_operation C1_cfg (.fails "vm API HTTP 500: boom")
        = .ok .shellAfterApiFailure := by
  refine ⟨by decide, rfl, by rfl⟩

/-- **C1, amended.**  For every infrastructure operation: with a configured
base URL, under **both** the `api` and `auto` transports, a failed API call
falls back to shell exactly when the Command Runner mode is not `strict` and
shell fallback is not explicitly disabled, and otherwise the failure is
raised to the caller; with transport `api` and no configured base URL the
operation raises before attempting anything. -/
theorem C1_transport_fallback (cfg : InfraSettings) (e : String)
    (hconf : cfg.base_url_configured = true)
    (ht : adapter_transport cfg = "api" ∨ adapter_transport cfg = "auto") :
    (run_infra_operation cfg (.fails e) = .ok .shellAfterApiFailure ↔
      (runner_mode cfg ≠ "strict" ∧ cfg.infra_api_fallback_shell = true))
    ∧ ((runner_mode cfg = "strict" ∨ cfg.infra_api_fallback_shell = false) →
        run_infra_operation cfg (.fails e) = .error e)
    ∧ (∀ cfg2 : InfraSettings, ∀ o : ApiCallOutcome,
        adapter_transport cfg2 = "api" → cfg2.base_url_configured = false →
        run_infra_operation cfg2 o = .error "API base URL is not configured.") := by
  have hns : (adapter_transport cfg == "shell") = false := by
    rcases ht with h | h <;> rw [h] <;> rfl
  have hsta : should_try_api cfg = .ok true := by
    simp [should_try_api, hns, hconf]
  have hfb : allow_shell_fallback cfg =
      (if runner_mode cfg == "strict" then false else cfg.infra_api_fallback_shell) := by
    simp [allow_shell_fallback, hns]
  refine ⟨?_, ?_, ?_⟩
  · by_cases hm : runner_mode cfg = "strict"
    · simp [run_infra_operation, hsta, hfb, hm]
    · have hm2 : (runner_mode cfg == "strict") = false := by
        simpa using hm
      cases hb : cfg.infra_api_fallback_shell <;>
        simp [run_infra_operation, hsta, hfb, hm2, hb, hm]
  · intro hcase
    rcases hcase with hm | hb
    · simp [run_infra_operation, hsta, hfb, hm]
    · by_cases hm : runner_mode cfg = "strict"
      · simp [run_infra_operation, hsta, hfb, hm]
      · have hm2 : (runner_mode cfg == "strict") = false := by
          simpa using hm
        simp [run_infra_operation, hsta, hfb, hm2, hb]
  · intro cfg2 o h2 hc2
    have hns2 : (adapter_transport cfg2 == "shell") = false := by
      rw [h2]; rfl
    have h2a : (adapter_transport cfg2 == "api") = true := by
      rw [h2]; rfl
    simp [run_infra_operation, should_try_api, hns2, hc2, h2a]

/-- Witness instantiating `C1_transport_fallback` at a concrete
configuration. -/
theorem C1_transport_fallback_witness :
    C1_witness_cfg.base_url_configured = true
    ∧ (adapter_transport C1_witness_cfg = "api" ∨ adapter_transport C1_witness_cfg = "auto")
    ∧ ((run_infra_operation C1_witness_cfg (.fails "boom") = .ok .shellAfterApiFailure ↔
        (runner_mode C1_witness_cfg ≠ "strict" ∧ C1_witness_cfg.infra_api_fallback_shell = true))
      ∧ ((runner_mode C1_witness_cfg = "strict" ∨ C1_witness_cfg.infra_api_fallback_shell = false) →
          run_infra_operation C1_witness_cfg (.fails "boom") = .error "boom")
      ∧ (∀ cfg2 : InfraSettings, ∀ o : ApiCallOutcome,
          adapter_transport cfg2 = "api" → cfg2.base_url_configured = false →
          run_infra_operation cfg2 o = .error "API base URL is not configured.")) :=
  ⟨rfl, Or.inr (by decide),
    C1_transport_fallback C1_witness_cfg "boom" rfl (Or.inr (by decide))⟩

/-- `guardrail_check` only ever reports guardrail violations. -/
theorem guardrail_check_cases (st : OrchState) (ram_mb cpu_cores : Nat) :
    guardrail_check st ram_mb cpu_cores = none
    ∨ guardrail_check st ram_mb cpu_cores = some .guardrailMaxVms
    ∨ guardrail_check st ram_mb cpu_cores = some .guardrailCpu
    ∨ guardrail_check st ram_mb cpu_cores = some .guardrailHostRam := by
  unfold guardrail_check
  cases hg : st.guardrails with
  | none => exact Or.inl rfl
  | some g =>
    dsimp only
    split_ifs <;> simp

/-- **C4, counterexample.**  `parse_ram_to_mb` applies no positivity check:
the memory strings `"0"` and `"0MB"` parse to 0 MB and a `createVm` request
carrying them succeeds instead of failing with `InvalidArgument`. -/
theorem C4_counterexample :
    parse_ram_to_mb "0" = .ok 0
    ∧ parse_ram_to_mb "0MB" = .ok 0
    ∧ isOkCreate (create_vm C4_state C4_request 0) = true := by
  refine ⟨by rfl, by rfl, by rfl⟩

/-- **C4, amended.**  Past the duplicate-id and template checks, `createVm`
fails with the 400 sizing error exactly when the memory string fails to match
the size pattern (digits with an optional `mb`/`m`/`gb`/`g` unit) or the cpu
string does not parse to a **positive** integer; the parsed memory amount
itself is not required to be positive (zero memory is accepted).  Any such
failure leaves the repository untouched. -/
theorem C4_sizing_validation (st : OrchState) (req : MicroVMCreate) (now : Nat)
    (hdup : activeDuplicate st req.id = false)
    (htpl : (get_template st req.template_id).isSome = true) :
    (isInvalidSizing (create_vm st req now) = true ↔
      (parseFails (parse_ram_to_mb req.ram) = true
        ∨ parseFails (parse_cpu_cores req.cpu) = true))
    ∧ (isInvalidSizing (create_vm st req now) = true → create_vm_state st req now = st) := by
  obtain ⟨tpl, hT⟩ := Option.isSome_iff_exists.mp htpl
  have hcv : ∀ r : Except CreateVmError (OrchState × MicroVM),
      create_vm st req now = r → isInvalidSizing r = true → create_vm_state st req now = st := by
    intro r hr hi
    unfold create_vm_state
    rw [hr]
    match r, hi with
    | .error e, _ => rfl
  constructor
  · unfold create_vm
    simp only [hdup, Bool.false_eq_true, if_false, hT]
    cases hram : parse_ram_to_mb req.ram with
    | error e => simp [parseFails, isInvalidSizing]
    | ok ram_mb =>
      cases hcpu : parse_cpu_cores req.cpu with
      | error e => simp [parseFails, isInvalidSizing]
      | ok cpu_cores =>
        dsimp only
        rcases guardrail_check_cases st ram_mb cpu_cores with hg | hg | hg | hg <;>
          rw [hg] <;> dsimp only
        · unfold insert_vm
          cases hany : st.vms.any (fun v => v.id == req.id) <;>
            simp [parseFails, isInvalidSizing]
        · simp [parseFails, isInvalidSizing]
        · simp [parseFails, isInvalidSizing]
        · simp [parseFails, isInvalidSizing]
  · intro hi
    exact hcv _ rfl hi

/-- Witness instantiating `C4_sizing_validation` at a concrete state and
request. -/
theorem C4_sizing_validation_witness :
    activeDuplicate C4_state C4_witness_request.id = false
    ∧ (get_template C4_state C4_witness_request.template_id).isSome = true
    ∧ ((isInvalidSizing (create_vm C4_state C4_witness_request 0) = true ↔
        (parseFails (parse_ram_to_mb C4_witness_request.ram) = true
          ∨ parseFails (parse_cpu_cores C4_witness_request.cpu) = true))
      ∧ (isInvalidSizing (create_vm C4_state C4_witness_request 0) = true →
          create_vm_state C4_state C4_witness_request 0 = C4_state)) :=
  ⟨rfl, rfl, C4_sizing_validation C4_state C4_witness_request 0 rfl rfl⟩

/-- Inversion of a successful `create_vm`: the new state extends the VM table
with the one fresh `creating` row, keeps the guardrails row, and the
active-count guardrail was satisfied strictly before the insert. -/
theorem create_vm_ok_inversion (st : OrchState) (req : MicroVMCreate) (now : Nat)
    (st1 : OrchState) (vm : MicroVM) (h : create_vm st req now = .ok (st1, vm)) :
    st1.guardrails = st.guardrails
    ∧ st1.vms = st.vms ++ [vm]
    ∧ vm.status = "creating"
    ∧ ∀ g : Guardrails, st.guardrails = some g →
        count_vms st ACTIVE_VM_STATES < g.max_vms := by
  unfold create_vm at h
  split at h
  · exact Except.noConfusion h
  · split at h
    · exact Except.noConfusion h
    · split at h
      · exact Except.noConfusion h
      · split at h
        · exact Except.noConfusion h
        · rename_i ram_mb _ cpu_cores _
          split at h
          · exact Except.noConfusion h
          · rename_i hguard
            split at h
            · exact Except.noConfusion h
            · rename_i st2 vm2 hins
              unfold insert_vm at hins
              split at hins
              · exact Except.noConfusion hins
              · rw [Except.ok.injEq, Prod.mk.injEq] at hins h
                obtain ⟨hst2, hvm2⟩ := hins
                obtain ⟨hst1, hvm⟩ := h
                refine ⟨?_, ?_, ?_, ?_⟩
                · rw [← hst1, ← hst2]
                · rw [← hst1, ← hst2, ← hvm, ← hvm2]
                · rw [← hvm, ← hvm2]
                · intro g hgg
                  unfold guardrail_check at hguard
                  rw [hgg] at hguard
                  dsimp only at hguard
                  by_contra hge
                  rw [if_pos (Nat.le_of_not_lt hge)] at hguard
                  exact Option.noConfusion hguard

/-- One sequential `create_vm` request preserves both the guardrails row and
the active-count bound. -/
theorem create_vm_step_bound (st : OrchState) (req : MicroVMCreate) (now : Nat)
    (g : Guardrails) (hg : st.guardrails = some g)
    (hb : count_vms st ACTIVE_VM_STATES ≤ g.max_vms) :
    (create_vm_state st req now).guardrails = some g
    ∧ count_vms (create_vm_state st req now) ACTIVE_VM_STATES ≤ g.max_vms := by
  unfold create_vm_state
  cases h : create_vm st req now with
  | error e => exact ⟨hg, hb⟩
  | ok p =>
    obtain ⟨st1, vm⟩ := p
    obtain ⟨hgu, hvms, hstat, hlt⟩ := create_vm_ok_inversion st req now st1 vm h
    dsimp only
    have hcount : count_vms st1 ACTIVE_VM_STATES = count_vms st ACTIVE_VM_STATES + 1 := by
      unfold count_vms
      rw [hvms, List.filter_append, List.length_append]
      simp [hstat, ACTIVE_VM_STATES]
    refine ⟨by rw [hgu, hg], ?_⟩
    rw [hcount]
    exact Nat.succ_le_of_lt (hlt g hg)

/-- **C7** (confirmed).  For every guardrail row with `max_vms = N` and every
sequence of sequentially executed `createVm` requests, the count of VMs in an
active state (`creating`/`running`/`stopping`/`restarting`) never exceeds `N`
after any prefix, provided it did not exceed `N` to begin with: each
successful create requires the active count to be strictly below `N` first
and adds exactly one `creating` VM, and each failed create leaves the state
untouched. -/
theorem C7_guardrail_never_exceeded (g : Guardrails) (reqs : List (MicroVMCreate × Nat)) :
    ∀ st : OrchState, st.guardrails = some g →
      count_vms st ACTIVE_VM_STATES ≤ g.max_vms →
      count_vms (apply_create_requests st reqs) ACTIVE_VM_STATES ≤ g.max_vms := by
  induction reqs with
  | nil => exact fun _ _ h => h
  | cons rq rest ih =>
    intro st hg hinit
    have step := create_vm_step_bound st rq.1 rq.2 g hg hinit
    exact ih _ step.1 step.2

/-- Witness instantiating `C7_guardrail_never_exceeded` at a concrete state
and request sequence. -/
theorem C7_guardrail_never_exceeded_witness :
    C7_state.guardrails = some C7_guardrails
    ∧ count_vms C7_state ACTIVE_VM_STATES ≤ C7_guardrails.max_vms
    ∧ count_vms (apply_create_requests C7_state C7_reqs) ACTIVE_VM_STATES
        ≤ C7_guardrails.max_vms :=
  ⟨rfl, by decide,
    C7_guardrail_never_exceeded C7_guardrails C7_reqs C7_state rfl (by decide)⟩

/-- **C10** (confirmed).  A `createVm` request reusing the id of an existing
`deleted` VM row passes the duplicate-id Conflict check (which rejects only
non-`deleted` rows), but the repository insert collides with the retained
row's primary key, so the call never completes successfully with a fresh VM
record. -/
theorem C10_deleted_id_not_reusable (st : OrchState) (req : MicroVMCreate) (now : Nat)
    (vm : MicroVM) (hv : get_vm st req.id = some vm) (hdel : vm.status = "deleted") :
    isDupConflict (create_vm st req now) = false
    ∧ isOkCreate (create_vm st req now) = false := by
  have hv2 : st.vms.find? (fun v => v.id == req.id) = some vm := hv
  have hany : st.vms.any (fun v => v.id == req.id) = true := by
    have hp : (vm.id == req.id) = true := by
      simpa using List.find?_some hv2
    exact List.any_eq_true.mpr ⟨vm, List.mem_of_find?_eq_some hv2, hp⟩
  have hdup : activeDuplicate st req.id = false := by
    unfold activeDuplicate
    rw [hv]
    dsimp only
    rw [hdel]
    rfl
  unfold create_vm
  simp only [hdup, Bool.false_eq_true, if_false]
  cases hT : get_template st req.template_id with
  | none => exact ⟨rfl, rfl⟩
  | some tpl =>
    cases hram : parse_ram_to_mb req.ram with
    | error e => exact ⟨rfl, rfl⟩
    | ok ram_mb =>
      cases hcpu : parse_cpu_cores req.cpu with
      | error e => exact ⟨rfl, rfl⟩
      | ok cpu_cores =>
        dsimp only
        rcases guardrail_check_cases st ram_mb cpu_cores with hgc | hgc | hgc | hgc <;>
          rw [hgc] <;> dsimp only
        · unfold insert_vm
          rw [hany]
          exact ⟨rfl, rfl⟩
        · exact ⟨rfl, rfl⟩
        · exact ⟨rfl, rfl⟩
        · exact ⟨rfl, rfl⟩

/-- Witness instantiating `C10_deleted_id_not_reusable` at a concrete state
and request. -/
theorem C10_deleted_id_not_reusable_witness :
    (∃ vm, get_vm C10_state C10_request.id = some vm ∧ vm.status = "deleted")
    ∧ isDupConflict (create_vm C10_state C10_request 7) = false
    ∧ isOkCreate (create_vm C10_state C10_request 7) = false := by
  refine ⟨⟨_, rfl, rfl⟩, C10_deleted_id_not_reusable C10_state C10_request 7 _ rfl rfl⟩

/-- A fold that always keeps either the accumulator or the new element
produces the seed or a list member. -/
theorem foldl_choice_mem {α : Type} (f : α → α → α)
    (hf : ∀ a b, f a b = a ∨ f a b = b) :
    ∀ (l : List α) (a : α), l.foldl f a = a ∨ l.foldl f a ∈ l := by
  intro l
  induction l with
  | nil => exact fun a => Or.inl rfl
  | cons x xs ih =>
    intro a
    rcases ih (f a x) with h | h
    · rcases hf a x with h2 | h2
      · rw [List.foldl_cons, h, h2]; exact Or.inl rfl
      · rw [List.foldl_cons, h, h2]; exact Or.inr (List.mem_cons_self x xs)
    · exact Or.inr (List.mem_cons_of_mem x h)

/-- A VM produced by `_pick_runtime_vm` belongs to the fleet and is
`running`. -/
theorem pick_runtime_vm_spec (vms : List MicroVM) (v : MicroVM)
    (h : pick_runtime_vm vms = some v) : v ∈ vms ∧ v.status = "running" := by
  unfold pick_runtime_vm at h
  cases hf : vms.filter
      (fun vm => vm.status != "deleted" && RUNNABLE_VM_STATES.contains vm.status) with
  | nil => rw [hf] at h; exact Option.noConfusion h
  | cons x xs =>
    rw [hf] at h
    dsimp only at h
    injection h with h
    have hchoice := foldl_choice_mem
      (fun best y => if y.created_at < best.created_at then y else best)
      (fun a b => by
        by_cases hab : b.created_at < a.created_at <;> simp [hab]) xs x
    have hmem : v ∈ x :: xs := by
      rw [← h]
      rcases hchoice with h2 | h2
      · rw [h2]; exact List.mem_cons_self x xs
      · exact List.mem_cons_of_mem x h2
    rw [← hf] at hmem
    have hfilt := List.mem_filter.mp hmem
    refine ⟨hfilt.1, ?_⟩
    have hb := hfilt.2
    simp only [Bool.and_eq_true] at hb
    have := hb.2
    simpa [RUNNABLE_VM_STATES] using this

/-- Primary-key lookup of a member of a table with `Nodup` ids finds exactly
that member. -/
theorem find_vm_of_mem_nodup (vms : List MicroVM) (vm : MicroVM)
    (hmem : vm ∈ vms) (hnodup : (vms.map MicroVM.id).Nodup) :
    find_vm vms vm.id = some vm := by
  induction vms with
  | nil => cases hmem
  | cons x xs ih =>
    rcases List.mem_cons.mp hmem with h | h
    · subst h
      unfold find_vm
      rw [List.find?_cons_of_pos _ (by simp)]
    · have hx : (x.id == vm.id) = false := by
        rw [beq_eq_false_iff_ne]
        intro heq
        have hin : vm.id ∈ xs.map MicroVM.id := List.mem_map_of_mem MicroVM.id h
        rw [← heq] at hin
        exact (List.nodup_cons.mp (by simpa using hnodup)).1 hin
      unfold find_vm
      rw [List.find?_cons_of_neg _ (by simp [hx])]
      exact ih h (List.nodup_cons.mp (by simpa using hnodup)).2

/-- The characterization of `classify_assigned_vm`. -/
theorem classify_assigned_vm_spec (vms : List MicroVM) (vmId : String) :
    (isFatalOutcome (classify_assigned_vm vms vmId) = true ↔
      (find_vm vms vmId = none
        ∨ ∃ vm, find_vm vms vmId = some vm ∧ TERMINAL_VM_STATES.contains vm.status = true))
    ∧ (isRetryableOutcome (classify_assigned_vm vms vmId) = true ↔
      ∃ vm, find_vm vms vmId = some vm
        ∧ TERMINAL_VM_STATES.contains vm.status = false ∧ vm.status ≠ "running") := by
  unfold classify_assigned_vm
  cases hf : find_vm vms vmId with
  | none =>
    refine ⟨iff_of_true rfl (Or.inl rfl), iff_of_false (by simp [isRetryableOutcome]) ?_⟩
    rintro ⟨vm2, hvm2, _⟩
    exact Option.noConfusion hvm2
  | some vm =>
    dsimp only
    cases hd : vm.status == "deleted" with
    | true =>
      have heq : vm.status = "deleted" := by simpa using hd
      rw [if_pos rfl]
      refine ⟨iff_of_true rfl (Or.inr ⟨vm, rfl, by rw [heq]; decide⟩),
        iff_of_false (by simp [isRetryableOutcome]) ?_⟩
      rintro ⟨vm2, hvm2, hc, _⟩
      injection hvm2 with h2
      subst h2
      rw [heq] at hc
      exact absurd hc (by decide)
    | false =>
      rw [if_neg (by simp [hd])]
      cases hterm : TERMINAL_VM_STATES.contains vm.status with
      | true =>
        rw [if_pos rfl]
        refine ⟨iff_of_true rfl (Or.inr ⟨vm, rfl, hterm⟩),
          iff_of_false (by simp [isRetryableOutcome]) ?_⟩
        rintro ⟨vm2, hvm2, hc, _⟩
        injection hvm2 with h2
        subst h2
        rw [hterm] at hc
        exact Bool.noConfusion hc
      | false =>
        rw [if_neg (by simp [hterm])]
        cases hrun : RUNNABLE_VM_STATES.contains vm.status with
        | true =>
          have hr : vm.status = "running" := by
            simpa [RUNNABLE_VM_STATES] using hrun
          rw [if_neg (by simp [hrun])]
          refine ⟨iff_of_false (by simp [isFatalOutcome]) ?_,
            iff_of_false (by simp [isRetryableOutcome]) ?_⟩
          · rintro (hnone | ⟨vm2, hvm2, hc⟩)
            · exact Option.noConfusion hnone
            · injection hvm2 with h2
              subst h2
              rw [hterm] at hc
              exact Bool.noConfusion hc
          · rintro ⟨vm2, hvm2, _, hne⟩
            injection hvm2 with h2
            subst h2
            exact hne hr
        | false =>
          rw [if_pos (by simp [hrun])]
          refine ⟨iff_of_false (by simp [isFatalOutcome]) ?_,
            iff_of_true rfl ⟨vm, rfl, hterm, ?_⟩⟩
          · rintro (hnone | ⟨vm2, hvm2, hc⟩)
            · exact Option.noConfusion hnone
            · injection hvm2 with h2
              subst h2
              rw [hterm] at hc
              exact Bool.noConfusion hc
          · intro hr
            rw [hr] at hrun
            exact absurd hrun (by decide)

/-- **C3, counterexample.**  An assigned VM that exists and is merely
`stopped` — not `deleted`, the lifecycle state machine's only terminal state —
makes the attempt fail **fatally**, because the automation module's
`TERMINAL_VM_STATES` is `{deleted, error, stopped}`; the claim, which calls
for a retryable failure here, is false. -/
theorem C3_counterexample :
    (find_vm C3_vms "vm-1").map MicroVM.status = some "stopped"
    ∧ ("stopped" : String) ≠ "deleted"
    ∧ run_single_job_attempt_validation C3_vms (some "vm-1")
        = .fatal "Assigned VM \x27vm-1\x27 is in state \x27stopped\x27." := by
  refine ⟨rfl, by decide, by rfl⟩

/-- **C3, amended.**  For every job attempt reaching VM validation: the
attempt fails fatally iff the assigned VM no longer exists or its state is in
the automation module's terminal set `{deleted, error, stopped}`; it fails
retryably iff the assigned VM exists in a state outside that set other than
`running` (`creating`, `stopping`, `restarting`, `deleting`), or — when no VM
is pinned — no runnable VM is available for auto-assignment (a fatal error
still aborts all remaining attempts immediately, see the retry-engine
theorem). -/
theorem C3_attempt_failure_taxonomy (vms : List MicroVM) (vmId : String)
    (hne : vmId ≠ "") (hnodup : (vms.map MicroVM.id).Nodup) :
    (isFatalOutcome (run_single_job_attempt_validation vms (some vmId)) = true ↔
      (find_vm vms vmId = none
        ∨ ∃ vm, find_vm vms vmId = some vm ∧ TERMINAL_VM_STATES.contains vm.status = true))
    ∧ (isRetryableOutcome (run_single_job_attempt_validation vms (some vmId)) = true ↔
      ∃ vm, find_vm vms vmId = some vm
        ∧ TERMINAL_VM_STATES.contains vm.status = false ∧ vm.status ≠ "running")
    ∧ (isRetryableOutcome (run_single_job_attempt_validation vms none) = true ↔
        pick_runtime_vm vms = none)
    ∧ isFatalOutcome (run_single_job_attempt_validation vms none) = false := by
  have hassigned : run_single_job_attempt_validation vms (some vmId)
      = classify_assigned_vm vms vmId := by
    unfold run_single_job_attempt_validation
    dsimp only
    rw [if_neg (by simpa using hne)]
  have hauto : ∀ v, pick_runtime_vm vms = some v →
      classify_assigned_vm vms v.id = .proceeds v.id := by
    intro v hv
    obtain ⟨hmem, hrun⟩ := pick_runtime_vm_spec vms v hv
    unfold classify_assigned_vm
    rw [find_vm_of_mem_nodup vms v hmem hnodup]
    dsimp only
    rw [if_neg (by rw [hrun]; decide), if_neg (by rw [hrun]; decide),
      if_neg (by rw [hrun]; decide)]
  obtain ⟨hfat, hret⟩ := classify_assigned_vm_spec vms vmId
  refine ⟨hassigned ▸ hfat, hassigned ▸ hret, ?_, ?_⟩
  · unfold run_single_job_attempt_validation
    dsimp only
    cases hp : pick_runtime_vm vms with
    | none => simp [isRetryableOutcome]
    | some v =>
      dsimp only
      rw [hauto v hp]
      simp [isRetryableOutcome]
  · unfold run_single_job_attempt_validation
    dsimp only
    cases hp : pick_runtime_vm vms with
    | none => rfl
    | some v =>
      dsimp only
      rw [hauto v hp]
      rfl

/-- Witness instantiating `C3_attempt_failure_taxonomy` at a concrete fleet
and VM id. -/
theorem C3_attempt_failure_taxonomy_witness :
    ("vm-2" : String) ≠ ""
    ∧ (C3_witness_vms.map MicroVM.id).Nodup
    ∧ ((isFatalOutcome (run_single_job_attempt_validation C3_witness_vms (some "vm-2")) = true ↔
        (find_vm C3_witness_vms "vm-2" = none
          ∨ ∃ vm, find_vm C3_witness_vms "vm-2" = some vm
              ∧ TERMINAL_VM_STATES.contains vm.status = true))
      ∧ (isRetryableOutcome (run_single_job_attempt_validation C3_witness_vms (some "vm-2")) = true ↔
        ∃ vm, find_vm C3_witness_vms "vm-2" = some vm
          ∧ TERMINAL_VM_STATES.contains vm.status = false ∧ vm.status ≠ "running")
      ∧ (isRetryableOutcome (run_single_job_attempt_validation C3_witness_vms none) = true ↔
          pick_runtime_vm C3_witness_vms = none)
      ∧ isFatalOutcome (run_single_job_attempt_validation C3_witness_vms none) = false) :=
  ⟨by decide, by decide,
    C3_attempt_failure_taxonomy C3_witness_vms "vm-2" (by decide) (by decide)⟩

/-- The retry loop never performs more iterations than its fuel allows. -/
theorem run_job_loop_attempts_le (outcomes : Nat → AttemptResult) :
    ∀ (fuel attempt : Nat) (job : JobState) (trace : List JobEvent),
      (run_job_loop outcomes fuel attempt job trace).attempts ≤ attempt - 1 + fuel := by
  intro fuel
  induction fuel with
  | zero =>
    intro attempt job trace
    simp [run_job_loop]
  | succ n ih =>
    intro attempt job trace
    unfold run_job_loop
    dsimp only
    cases outcomes attempt with
    | success => dsimp only; omega
    | retryableFail msg =>
      dsimp only
      by_cases hlt : attempt < MAX_JOB_RETRIES + 1
      · rw [if_pos hlt]
        exact le_trans (ih (attempt + 1) _ _) (by omega)
      · rw [if_neg hlt]; dsimp only; omega
    | fatalFail msg => dsimp only; omega

/-- **C6** (confirmed).  The retry engine: a fatal first attempt leaves the
job `Failed` after exactly one attempt with no retries; a run whose attempts
fail only retryably and then succeed ends `Completed` with progress 100, the
error cleared, and `retry_count` equal to the number of failed attempts; at
most `MAX_JOB_RETRIES = 2` retries beyond the first attempt are performed
(three attempts total), and each retry is preceded by marking the job
`Retrying` with progress reset to 5 and a backoff sleep of `retry_index`
seconds (1s then 2s). -/
theorem C6_retry_engine (job0 : JobState) (e e1 e2 : String)
    (h0 : job0.retry_count = 0) (hp : job0.progress = 0) :
    run_job_with_retries (outcomesOf [.fatalFail e]) job0
      = { job := { status := "Failed", progress := 0, retry_count := 0
                   error_message := some e }
          op_status := "failed", attempts := 1, retry_trace := [] }
    ∧ run_job_with_retries (outcomesOf []) job0
      = { job := { status := "Completed", progress := 100, retry_count := 0
                   error_message := none }
          op_status := "succeeded", attempts := 1, retry_trace := [] }
    ∧ run_job_with_retries (outcomesOf [.retryableFail e1]) job0
      = { job := { status := "Completed", progress := 100, retry_count := 1
                   error_message := none }
          op_status := "succeeded", attempts := 2
          retry_trace := [.jobUpdate { status := "Retrying", progress := 5
                                       retry_count := 1, error_message := none },
                          .sleepSeconds 1] }
    ∧ run_job_with_retries (outcomesOf [.retryableFail e1, .retryableFail e2]) job0
      = { job := { status := "Completed", progress := 100, retry_count := 2
                   error_message := none }
          op_status := "succeeded", attempts := 3
          retry_trace := [.jobUpdate { status := "Retrying", progress := 5
                                       retry_count := 1, error_message := none },
                          .sleepSeconds 1,
                          .jobUpdate { status := "Retrying", progress := 5
                                       retry_count := 2, error_message := none },
                          .sleepSeconds 2] }
    ∧ (∀ f : Nat → AttemptResult,
        (run_job_with_retries f job0).attempts ≤ MAX_JOB_RETRIES + 1)
    ∧ (∀ f : Nat → AttemptResult, ∀ job : JobState, f 1 = .fatalFail e →
        (run_job_with_retries f job).attempts = 1
        ∧ (run_job_with_retries f job).job.status = "Failed"
        ∧ (run_job_with_retries f job).job.error_message = some e) := by
  refine ⟨?_, ?_, ?_, ?_, ?_, ?_⟩
  · simp [run_job_with_retries, run_job_loop, outcomesOf, MAX_JOB_RETRIES, h0, hp]
  · simp [run_job_with_retries, run_job_loop, outcomesOf, run_success_stages,
      JOB_STAGES, apply_stage, MAX_JOB_RETRIES, h0, hp]
  · simp [run_job_with_retries, run_job_loop, outcomesOf, run_success_stages,
      JOB_STAGES, apply_stage, MAX_JOB_RETRIES, h0, hp]
  · simp [run_job_with_retries, run_job_loop, outcomesOf, run_success_stages,
      JOB_STAGES, apply_stage, MAX_JOB_RETRIES, h0, hp]
  · intro f
    have := run_job_loop_attempts_le f (MAX_JOB_RETRIES + 1) 1 job0 []
    simpa [run_job_with_retries] using this
  · intro f job hf1
    have hrun : run_job_with_retries f job =
        { job := { status := "Failed", progress := min job.progress 99
                   retry_count := job.retry_count, error_message := some e }
          op_status := "failed", attempts := 1, retry_trace := [] } := by
      unfold run_job_with_retries
      show run_job_loop f (2 + 1) 1 job [] = _
      unfold run_job_loop
      rw [hf1]
      simp
    rw [hrun]
    exact ⟨rfl, rfl, rfl⟩

/-- Witness instantiating `C6_retry_engine` at a concrete freshly queued
job. -/
theorem C6_retry_engine_witness :
    (JobState.mk "Queued" 0 0 none).retry_count = 0
    ∧ (JobState.mk "Queued" 0 0 none).progress = 0
    ∧ (run_job_with_retries (outcomesOf [.fatalFail "vm gone"]) (JobState.mk "Queued" 0 0 none)
      = { job := { status := "Failed", progress := 0, retry_count := 0
                   error_message := some "vm gone" }
          op_status := "failed", attempts := 1, retry_trace := [] }) :=
  ⟨rfl, rfl,
    (C6_retry_engine (JobState.mk "Queued" 0 0 none) "vm gone" "t1" "t2" rfl rfl).1⟩

/-- Writing a pool entry makes the entry readable back. -/
theorem lookup_pool_update_self (m : List (String × Nat)) (k : String) (v : Nat) :
    lookup_pool (pool_update m k v) k = v := by
  induction m with
  | nil => simp [pool_update, lookup_pool]
  | cons x xs ih =>
    unfold pool_update at ih ⊢
    by_cases hx : (x.1 == k) = true
    · rw [if_pos (by simp [List.any_cons, hx])]
      unfold lookup_pool
      rw [List.map_cons, if_pos hx, List.find?_cons_of_pos _ (by simpa using hx)]
      rfl
    · have hx2 : (x.1 == k) = false := by simpa using hx
      cases hxs : xs.any (fun p => p.1 == k) with
      | true =>
        rw [if_pos (by simp [List.any_cons, hxs])]
        rw [if_pos hxs] at ih
        unfold lookup_pool at ih ⊢
        rw [List.map_cons, if_neg (by simp [hx2]),
          List.find?_cons_of_neg _ (by simp [hx2])]
        exact ih
      | false =>
        rw [if_neg (by simp [List.any_cons, hx2, hxs])]
        rw [if_neg (by simp [hxs])] at ih
        unfold lookup_pool at ih ⊢
        rw [List.cons_append, List.find?_cons_of_neg _ (by simp [hx2])]
        exact ih

/-- **C5** (confirmed).  Whenever `evaluate_autoscale` passes validation, the
desired fleet size equals `min(effective_max, max(ceil(active_jobs /
jobs_per_vm), sum_of_regional_minimums))`, with `effective_max =
min(requested max, guardrail max_vms)`, active jobs counted over
`{Queued, Running, Retrying}`, the pooled minimum the sum of the folded
regional minimums, and the target region's minimum folded in as the larger of
its pool entry and the requested `min_vms`. -/
theorem C5_desired_size (payload : AutoscaleRequest) (guardrails : Option Guardrails)
    (jobs : List SchedulerJob) (comp : AutoscaleComputation)
    (hjpv : 0 < payload.jobs_per_vm)
    (h : evaluate_autoscale_core payload guardrails jobs = .ok comp) :
    comp.desired_vms = desired_vms_spec comp.effective_max_vms comp.active_jobs
        payload.jobs_per_vm comp.pooled_minimum
    ∧ (∀ g : Guardrails, guardrails = some g →
        comp.effective_max_vms = min payload.max_vms g.max_vms)
    ∧ comp.active_jobs
        = (jobs.filter (fun j => ACTIVE_JOB_STATUSES.contains j.status)).length
    ∧ comp.pooled_minimum = (comp.pools.map Prod.snd).sum
    ∧ (∀ pools0, fold_country_pools payload.country_min_pools [] = .ok pools0 →
        lookup_pool comp.pools (normalize_country payload.country)
          = max (lookup_pool pools0 (normalize_country payload.country)) payload.min_vms) := by
  have hceil0 : ceil_div 0 payload.jobs_per_vm = 0 := by
    unfold ceil_div
    exact Nat.div_eq_of_lt (by omega)
  unfold evaluate_autoscale_core at h
  dsimp only at h
  split at h
  · exact Except.noConfusion h
  split at h
  · exact Except.noConfusion h
  split at h
  · exact Except.noConfusion h
  rename_i pools0 hfold
  split at h
  · exact Except.noConfusion h
  rw [Except.ok.injEq] at h
  subst h
  refine ⟨?_, ?_, rfl, rfl, ?_⟩
  · dsimp only [desired_vms_spec]
    cases hempty : (jobs.filter
        (fun j => ACTIVE_JOB_STATUSES.contains j.status)).isEmpty with
    | true =>
      have hlen : (jobs.filter
          (fun j => ACTIVE_JOB_STATUSES.contains j.status)).length = 0 := by
        rw [List.isEmpty_iff] at hempty
        rw [hempty]
        rfl
      rw [if_pos rfl, hlen, hceil0, Nat.min_comm]
    | false =>
      rw [if_neg (by decide), Nat.min_comm]
  · intro g hg
    dsimp only
    rw [hg]
    rfl
  · intro pools0b hfold2
    rw [hfold, Except.ok.injEq] at hfold2
    subst hfold2
    exact lookup_pool_update_self pools0 (normalize_country payload.country) _

/-- Witness instantiating `C5_desired_size` on a concrete evaluation. -/
theorem C5_desired_size_witness :
    0 < C5_payload.jobs_per_vm
    ∧ (∃ comp, evaluate_autoscale_core C5_payload (some C5_guardrails) C5_jobs = .ok comp
      ∧ comp.desired_vms = desired_vms_spec comp.effective_max_vms comp.active_jobs
          C5_payload.jobs_per_vm comp.pooled_minimum
      ∧ (∀ g : Guardrails, some C5_guardrails = some g →
          comp.effective_max_vms = min C5_payload.max_vms g.max_vms)
      ∧ comp.active_jobs
          = (C5_jobs.filter (fun j => ACTIVE_JOB_STATUSES.contains j.status)).length
      ∧ comp.pooled_minimum = (comp.pools.map Prod.snd).sum
      ∧ (∀ pools0, fold_country_pools C5_payload.country_min_pools [] = .ok pools0 →
          lookup_pool comp.pools (normalize_country C5_payload.country)
            = max (lookup_pool pools0 (normalize_country C5_payload.country))
                C5_payload.min_vms)) := by
  refine ⟨by decide, ⟨_, by rfl, ?_⟩⟩
  exact C5_desired_size C5_payload (some C5_guardrails) C5_jobs _ (by decide) (by rfl)

/-- Membership in the busy set: exactly the non-empty `vm_id`s of active
jobs. -/
theorem mem_busy_vm_ids (active : List SchedulerJob) (s : String) :
    s ∈ busy_vm_ids active ↔ ∃ j ∈ active, j.vm_id = some s ∧ s ≠ "" := by
  unfold busy_vm_ids
  rw [List.mem_filterMap]
  constructor
  · rintro ⟨j, hj, hmap⟩
    refine ⟨j, hj, ?_⟩
    cases hvm : j.vm_id with
    | none => rw [hvm] at hmap; exact Option.noConfusion hmap
    | some t =>
      rw [hvm] at hmap
      dsimp only at hmap
      by_cases ht : (t == "") = true
      · rw [if_pos ht] at hmap; exact Option.noConfusion hmap
      · rw [if_neg ht] at hmap
        rw [Option.some.injEq] at hmap
        subst hmap
        exact ⟨rfl, by simpa using ht⟩
  · rintro ⟨j, hj, hvm, hs⟩
    refine ⟨j, hj, ?_⟩
    rw [hvm]
    dsimp only
    rw [if_neg (by simpa using hs)]

/-- The kept-first-maximum fold picks a member of maximal `created_at`. -/
theorem youngest_vm_spec (v : MicroVM) (vs : List MicroVM) :
    youngest_vm v vs ∈ v :: vs
    ∧ v.created_at ≤ (youngest_vm v vs).created_at
    ∧ ∀ u ∈ vs, u.created_at ≤ (youngest_vm v vs).created_at := by
  induction vs generalizing v with
  | nil =>
    refine ⟨List.mem_cons_self v [], Nat.le_refl _, ?_⟩
    intro u hu
    cases hu
  | cons x xs ih =>
    have hstep : youngest_vm v (x :: xs)
        = youngest_vm (if v.created_at < x.created_at then x else v) xs := rfl
    obtain ⟨hmem, hle, hall⟩ := ih (if v.created_at < x.created_at then x else v)
    refine ⟨?_, ?_, ?_⟩
    · rw [hstep]
      rcases List.mem_cons.mp hmem with h | h
      · rw [h]
        by_cases hvx : v.created_at < x.created_at
        · rw [if_pos hvx]; exact List.mem_cons_of_mem v (List.mem_cons_self x xs)
        · rw [if_neg hvx]; exact List.mem_cons_self v (x :: xs)
      · exact List.mem_cons_of_mem v (List.mem_cons_of_mem x h)
    · rw [hstep]
      refine Nat.le_trans ?_ hle
      by_cases hvx : v.created_at < x.created_at
      · rw [if_pos hvx]; exact Nat.le_of_lt hvx
      · rw [if_neg hvx]
    · intro u hu
      rw [hstep]
      rcases List.mem_cons.mp hu with h | h
      · subst h
        refine Nat.le_trans ?_ hle
        by_cases hvx : v.created_at < u.created_at
        · rw [if_pos hvx]
        · rw [if_neg hvx]; exact Nat.le_of_not_lt hvx
      · exact hall u h

/-- The two scale-down `NoAction` reasons are distinct strings: after the
shared prefix, one continues with a semicolon, the other with a comma. -/
theorem scale_down_reasons_distinct (rc d : Nat) (pd : String) :
    pools_prevent_reason rc d pd ≠ all_busy_reason rc d := by
  unfold pools_prevent_reason all_busy_reason no_candidate_reason_head
  intro h
  have hdata := congrArg String.data h
  simp only [String.data_append, List.append_assoc,
    List.append_cancel_left_eq] at hdata
  rw [List.cons_append] at hdata
  simp only [List.cons.injEq] at hdata
  exact absurd hdata.1 (by decide)

/-- **C9** (confirmed).  In a scale-down evaluation (`running > desired`):
the candidates are exactly the running VMs not referenced by any job in
`{Queued, Running, Retrying}`; a candidate is eligible exactly when removing
it keeps its region at or above the configured floor; when eligible
candidates exist the decision stops the one with maximal `created_at` (the
youngest); when candidates exist but regional floors exclude all of them, or
when there is no idle candidate at all, the decision is `NoAction` with the
two cases carrying provably different reason strings. -/
theorem C9_scale_down_selection (comp : AutoscaleComputation) (payload : AutoscaleRequest)
    (vms : List MicroVM) (jobs : List SchedulerJob) (pool_description : String)
    (hgt : comp.desired_vms < (vms.filter (fun vm => vm.status == "running")).length)
    (hids : ∀ w ∈ vms.filter (fun vm => vm.status == "running"), w.id ≠ "") :
    (∀ w, w ∈ idle_candidates (vms.filter (fun vm => vm.status == "running"))
        (jobs.filter (fun j => ACTIVE_JOB_STATUSES.contains j.status)) ↔
      (w ∈ vms.filter (fun vm => vm.status == "running")
        ∧ ∀ j ∈ jobs.filter (fun j => ACTIVE_JOB_STATUSES.contains j.status),
            j.vm_id ≠ some w.id))
    ∧ (∀ w, w ∈ eligible_idle_candidates (vms.filter (fun vm => vm.status == "running"))
          (jobs.filter (fun j => ACTIVE_JOB_STATUSES.contains j.status)) comp.pools ↔
        (w ∈ idle_candidates (vms.filter (fun vm => vm.status == "running"))
            (jobs.filter (fun j => ACTIVE_JOB_STATUSES.contains j.status))
          ∧ (lookup_pool comp.pools (normalize_country w.country) : Int)
              ≤ (running_by_country (vms.filter (fun vm => vm.status == "running"))
                  (normalize_country w.country) : Int) - 1))
    ∧ (∀ v vs, eligible_idle_candidates (vms.filter (fun vm => vm.status == "running"))
          (jobs.filter (fun j => ACTIVE_JOB_STATUSES.contains j.status)) comp.pools
            = v :: vs →
        autoscale_post_decision comp payload vms jobs pool_description
            = .scale_down (youngest_vm v vs).id
                (scale_down_reason (vms.filter (fun vm => vm.status == "running")).length
                  comp.desired_vms (youngest_vm v vs).id pool_description)
          ∧ youngest_vm v vs ∈ eligible_idle_candidates
              (vms.filter (fun vm => vm.status == "running"))
              (jobs.filter (fun j => ACTIVE_JOB_STATUSES.contains j.status)) comp.pools
          ∧ ∀ u ∈ eligible_idle_candidates (vms.filter (fun vm => vm.status == "running"))
              (jobs.filter (fun j => ACTIVE_JOB_STATUSES.contains j.status)) comp.pools,
              u.created_at ≤ (youngest_vm v vs).created_at)
    ∧ (eligible_idle_candidates (vms.filter (fun vm => vm.status == "running"))
          (jobs.filter (fun j => ACTIVE_JOB_STATUSES.contains j.status)) comp.pools = [] →
        idle_candidates (vms.filter (fun vm => vm.status == "running"))
          (jobs.filter (fun j => ACTIVE_JOB_STATUSES.contains j.status)) ≠ [] →
        autoscale_post_decision comp payload vms jobs pool_description
          = .no_action (pools_prevent_reason
              (vms.filter (fun vm => vm.status == "running")).length
              comp.desired_vms pool_description))
    ∧ (idle_candidates (vms.filter (fun vm => vm.status == "running"))
          (jobs.filter (fun j => ACTIVE_JOB_STATUSES.contains j.status)) = [] →
        autoscale_post_decision comp payload vms jobs pool_description
          = .no_action (all_busy_reason
              (vms.filter (fun vm => vm.status == "running")).length comp.desired_vms))
    ∧ pools_prevent_reason (vms.filter (fun vm => vm.status == "running")).length
          comp.desired_vms pool_description
        ≠ all_busy_reason (vms.filter (fun vm => vm.status == "running")).length
          comp.desired_vms := by
  have hnotlt : ¬((vms.filter (fun vm => vm.status == "running")).length < comp.desired_vms) :=
    Nat.lt_asymm hgt
  refine ⟨?_, ?_, ?_, ?_, ?_, scale_down_reasons_distinct _ _ _⟩
  · intro w
    unfold idle_candidates
    rw [List.mem_filter]
    constructor
    · rintro ⟨hw, hb⟩
      refine ⟨hw, ?_⟩
      intro j hj href
      have hmem : w.id ∈ busy_vm_ids
          (jobs.filter (fun j => ACTIVE_JOB_STATUSES.contains j.status)) :=
        (mem_busy_vm_ids _ _).mpr ⟨j, hj, href, hids w hw⟩
      rw [Bool.not_eq_true'] at hb
      have hb2 : List.elem w.id (busy_vm_ids
          (jobs.filter (fun j => ACTIVE_JOB_STATUSES.contains j.status))) = false := hb
      rw [List.elem_iff.mpr hmem] at hb2
      exact Bool.noConfusion hb2
    · rintro ⟨hw, hnoref⟩
      refine ⟨hw, ?_⟩
      have hni : ¬ w.id ∈ busy_vm_ids
          (jobs.filter (fun j => ACTIVE_JOB_STATUSES.contains j.status)) := by
        intro hm
        obtain ⟨j, hj, href, _⟩ := (mem_busy_vm_ids _ _).mp hm
        exact hnoref j hj href
      have hb2 : List.elem w.id (busy_vm_ids
          (jobs.filter (fun j => ACTIVE_JOB_STATUSES.contains j.status))) = false := by
        cases helem : List.elem w.id (busy_vm_ids
            (jobs.filter (fun j => ACTIVE_JOB_STATUSES.contains j.status))) with
        | false => rfl
        | true => exact absurd (List.elem_iff.mp helem) hni
      show (!(List.elem w.id (busy_vm_ids
          (jobs.filter (fun j => ACTIVE_JOB_STATUSES.contains j.status))))) = true
      rw [hb2]
      rfl
  · intro w
    unfold eligible_idle_candidates
    rw [List.mem_filter]
    constructor
    · rintro ⟨hw, hcond⟩
      refine ⟨hw, ?_⟩
      simp only [Bool.not_eq_true', decide_eq_false_iff_not, Int.not_lt] at hcond
      exact hcond
    · rintro ⟨hw, hle⟩
      refine ⟨hw, ?_⟩
      simp only [Bool.not_eq_true', decide_eq_false_iff_not, Int.not_lt]
      exact hle
  · intro v vs helig
    obtain ⟨hmem, _, hall⟩ := youngest_vm_spec v vs
    refine ⟨?_, ?_, ?_⟩
    · unfold autoscale_post_decision
      dsimp only
      rw [if_neg hnotlt, if_pos hgt, helig]
    · rw [helig]
      exact hmem
    · intro u hu
      rw [helig] at hu
      rcases List.mem_cons.mp hu with h | h
      · rw [h]; exact (youngest_vm_spec v vs).2.1
      · exact hall u h
  · intro helig hidle
    unfold autoscale_post_decision
    dsimp only
    rw [if_neg hnotlt, if_pos hgt, helig]
    dsimp only
    rw [if_neg (fun hempty => hidle (List.isEmpty_iff.mp hempty))]
  · intro hidle
    unfold autoscale_post_decision
    dsimp only
    have helig : eligible_idle_candidates (vms.filter (fun vm => vm.status == "running"))
        (jobs.filter (fun j => ACTIVE_JOB_STATUSES.contains j.status)) comp.pools = [] := by
      unfold eligible_idle_candidates
      rw [hidle]
      rfl
    rw [if_neg hnotlt, if_pos hgt, helig]
    dsimp only
    rw [if_pos (by rw [hidle]; rfl)]

/-- Witness instantiating `C9_scale_down_selection` on a concrete fleet: the
youngest eligible idle VM, `vm-c`, is stopped. -/
theorem C9_scale_down_selection_witness :
    C9_comp.desired_vms < (C9_vms.filter (fun vm => vm.status == "running")).length
    ∧ (∀ w ∈ C9_vms.filter (fun vm => vm.status == "running"), w.id ≠ "")
    ∧ autoscale_post_decision C9_comp C9_payload C9_vms C9_jobs "De:1"
        = .scale_down "vm-c" (scale_down_reason 3 2 "vm-c" "De:1") := by
  refine ⟨by decide, by decide, ?_⟩
  have h3 := (C9_scale_down_selection C9_comp C9_payload C9_vms C9_jobs "De:1"
      (by decide) (by decide)).2.2.1 C9_vm_b [C9_vm_c] (by decide)
  exact h3.1

end NuevoDashboard
